import Mathlib

/-!
# Verification of the software color-grading pipeline

Shallow embedding of the grading core of this repository:

* `src/color_correct.py` — software "registers" (`proc_vals`), bounded
  adjustment (`_inc_proc`), reset, the four stage helpers and
  `apply_svo_pipeline`;
* `src/single_frame.py` — the duplicated stage helpers and `render`.

Modelling conventions:

* Python floats are modelled exactly: stage arithmetic that the source
  performs on floats of the form `int ± small decimal constant` is carried
  out in `ℚ`; the Kelvin conversion, which uses `log` and fractional
  powers, is carried out in `ℝ`.
* The settings dict `proc_vals` (and `single_frame`'s `params` dict, which
  has the same eight keys) is a structure `ProcVals` with one `ℤ` field per
  key; the globals read by `_inc_proc` (`str_camera_settings`,
  `step_camera_settings`) are passed explicitly.
* A frame (`numpy` array of shape h×w×3, dtype uint8) is a list of rows of
  `Px` values; `Px` holds the three channels in OpenCV's B,G,R index order
  as natural numbers (intended range 0..255).
* OpenCV primitives whose pixel semantics the repository relies on only
  elementwise (`convertScaleAbs`, `addWeighted`) are modelled concretely,
  with OpenCV's saturate-cast and round-half-to-even; primitives with
  nontrivial internals the repository never inspects (`cvtColor` in either
  direction, `GaussianBlur`) are abstracted as the fields of a `Cv2`
  record, over which all theorems are universally quantified.
-/

/-- Python `int()` on a rational: truncation toward zero. -/
def pyInt (q : ℚ) : ℤ := if 0 ≤ q then ⌊q⌋ else -⌊-q⌋

/-- Round to nearest (halves up).  This is the `round` the spec text and the
claims speak about; the source itself never calls `round` — it uses Python
`int()`, i.e. `pyInt`. -/
def specRound (q : ℚ) : ℤ := ⌊q + 1/2⌋

/-- `np.clip` on integers: `min(hi, max(x, lo))`. -/
def npClipZ (x lo hi : ℤ) : ℤ := min hi (max x lo)

/-- `np.clip` on reals: `min(hi, max(x, lo))`. -/
noncomputable def npClipR (x lo hi : ℝ) : ℝ := min hi (max x lo)

/-- numpy `astype(np.uint8)` from a wider signed integer: wraps modulo 256. -/
def astype_u8 (x : ℤ) : ℕ := (x % 256).toNat

/-- OpenCV `saturate_cast<uchar>`: clamp to [0, 255]. -/
def saturate_u8 (x : ℤ) : ℕ := (npClipZ x 0 255).toNat

/-- OpenCV `cvRound`: round to nearest, ties to even. -/
def cvRound (q : ℚ) : ℤ :=
  if Int.fract q < 1/2 then ⌊q⌋
  else if 1/2 < Int.fract q then ⌊q⌋ + 1
  else if ⌊q⌋ % 2 = 0 then ⌊q⌋ else ⌊q⌋ + 1

/-- One pixel, channels in OpenCV's B,G,R index order (dtype uint8). -/
structure Px where
  b : ℕ
  g : ℕ
  r : ℕ
deriving DecidableEq, Repr

/-- One pixel of the 8-bit HSV representation produced by
`cv2.cvtColor(·, COLOR_BGR2HSV)`: hue on the 180-step wheel (0..179),
saturation and value 0..255. -/
structure Hsv where
  h : ℕ
  s : ℕ
  v : ℕ
deriving DecidableEq, Repr

/-- A frame: rows of pixels. -/
abbrev Frame := List (List Px)

/-- A frame of zero height or zero width — an empty image in numpy/OpenCV
terms (the shapes §7 of the spec says must be rejected before any stage
runs; a wrong channel count is not representable in this model, `Px` having
exactly three channels). -/
def frame_has_bad_shape (f : Frame) : Bool :=
  f.length == 0 || f.any fun row => row.length == 0

/-- The OpenCV primitives the stage helpers call but whose internals the
repository neither defines nor inspects.  All pipeline theorems hold for
every interpretation of this record. -/
structure Cv2 where
  bgr2hsv : Px → Hsv
  hsv2bgr : Hsv → Px
  gaussianBlur : Frame → Frame

/-- `cv2.convertScaleAbs(img, alpha, beta)`:
per channel `saturate_cast<uchar>(round(|alpha*x + beta|))`. -/
def convertScaleAbs (img : Frame) (alpha beta : ℚ) : Frame :=
  img.map fun row => row.map fun p =>
    { b := saturate_u8 (cvRound |alpha * (p.b : ℚ) + beta|)
      g := saturate_u8 (cvRound |alpha * (p.g : ℚ) + beta|)
      r := saturate_u8 (cvRound |alpha * (p.r : ℚ) + beta|) }

/-- `cv2.addWeighted(src1, alpha, src2, beta, gamma)`:
per channel `saturate_cast<uchar>(round(alpha*x + beta*y + gamma))`. -/
def addWeighted (src1 : Frame) (alpha : ℚ) (src2 : Frame) (beta gamma : ℚ) : Frame :=
  List.zipWith
    (fun r1 r2 =>
      List.zipWith
        (fun p q : Px =>
          { b := saturate_u8 (cvRound (alpha * (p.b : ℚ) + beta * (q.b : ℚ) + gamma))
            g := saturate_u8 (cvRound (alpha * (p.g : ℚ) + beta * (q.g : ℚ) + gamma))
            r := saturate_u8 (cvRound (alpha * (p.r : ℚ) + beta * (q.r : ℚ) + gamma)) : Px })
        r1 r2)
    src1 src2

/-- The eight software "registers" of `color_correct.py` (the `proc_vals`
dict, lines 26–35); `single_frame.py`'s `params`/`defaults` dicts have the
same eight keys. -/
structure ProcVals where
  brightness : ℤ
  contrast : ℤ
  hue : ℤ
  saturation : ℤ
  sharpness : ℤ
  gain : ℤ
  exposure : ℤ
  whitebalance_temperature : ℤ
deriving DecidableEq, Repr

namespace color_correct

/-- Initial value of the `proc_vals` dict (`color_correct.py` lines 26–35). -/
def proc_vals : ProcVals :=
  { brightness := 0, contrast := 0, hue := 0, saturation := 0
    sharpness := 0, gain := 0, exposure := 0, whitebalance_temperature := 5500 }

/-- The global `step_camera_settings = 1` (`color_correct.py` line 18). -/
def step_camera_settings : ℤ := 1

/-- `str_camera_settings.upper().replace(" ", "_")` (`_inc_proc` line 254).
Since the replaced pattern is the single character `' '`, the two string
operations together are the character map applied here. -/
def normalize_setting_name (s : String) : String :=
  ⟨s.data.map fun c => if c = Char.ofNat 32 then Char.ofNat 95 else c.toUpper⟩

/-- The keys of the `proc_vals` dict, i.e. the fixed eight setting names. -/
def proc_keys : List String :=
  ["BRIGHTNESS", "CONTRAST", "HUE", "SATURATION",
   "SHARPNESS", "GAIN", "EXPOSURE", "WHITEBALANCE_TEMPERATURE"]

/-- `_inc_proc(delta)` (`color_correct.py` lines 253–272), with the globals
it reads (`str_camera_settings`, the registers) passed explicitly.  A name
not among the keys hits the early `return`, leaving the registers untouched
(final `else`).  Otherwise the register is set to
`int(np.clip(val0 + delta*step, lo, hi))` with the bounds of the `bounds`
dict (lines 258–267); `int()` on an `int` is the identity. -/
def _inc_proc (str_camera_settings : String) (delta : ℤ) (s : ProcVals) : ProcVals :=
  let name := normalize_setting_name str_camera_settings
  if name = "BRIGHTNESS" then
    { s with brightness := npClipZ (s.brightness + delta * step_camera_settings) (-100) 100 }
  else if name = "CONTRAST" then
    { s with contrast := npClipZ (s.contrast + delta * step_camera_settings) 0 100 }
  else if name = "HUE" then
    { s with hue := npClipZ (s.hue + delta * step_camera_settings) (-90) 90 }
  else if name = "SATURATION" then
    { s with saturation := npClipZ (s.saturation + delta * step_camera_settings) (-100) 100 }
  else if name = "SHARPNESS" then
    { s with sharpness := npClipZ (s.sharpness + delta * step_camera_settings) 0 60 }
  else if name = "GAIN" then
    { s with gain := npClipZ (s.gain + delta * step_camera_settings) 0 100 }
  else if name = "EXPOSURE" then
    { s with exposure := npClipZ (s.exposure + delta * step_camera_settings) 0 100 }
  else if name = "WHITEBALANCE_TEMPERATURE" then
    { s with whitebalance_temperature :=
        npClipZ (s.whitebalance_temperature + delta * step_camera_settings) 2000 8000 }
  else
    s

/-- A call to `_inc_proc` as seen by its caller: the function body contains
no `raise` on any path (an unknown name takes the silent early `return`),
so a call always returns normally; the `Except` codomain records this
explicitly so that error-propagation claims can be stated. -/
def _inc_proc_call (str_camera_settings : String) (delta : ℤ) (s : ProcVals) :
    Except String ProcVals :=
  .ok (_inc_proc str_camera_settings delta s)

/-- The `'r'` branch of `update_camera_settings` in playback mode
(`color_correct.py` lines 217–223): `proc_vals.update({...})` with all
eight keys, so the prior state is irrelevant. -/
def reset_playback_settings (_s : ProcVals) : ProcVals :=
  { brightness := 0, contrast := 0, hue := 0, saturation := 0
    sharpness := 0, gain := 0, exposure := 0, whitebalance_temperature := 5500 }

/-- All eight registers within the bounds declared in `_inc_proc`'s
`bounds` dict. -/
def proc_vals_in_bounds (s : ProcVals) : Prop :=
  (-100 ≤ s.brightness ∧ s.brightness ≤ 100)
  ∧ (0 ≤ s.contrast ∧ s.contrast ≤ 100)
  ∧ (-90 ≤ s.hue ∧ s.hue ≤ 90)
  ∧ (-100 ≤ s.saturation ∧ s.saturation ≤ 100)
  ∧ (0 ≤ s.sharpness ∧ s.sharpness ≤ 60)
  ∧ (0 ≤ s.gain ∧ s.gain ≤ 100)
  ∧ (0 ≤ s.exposure ∧ s.exposure ≤ 100)
  ∧ (2000 ≤ s.whitebalance_temperature ∧ s.whitebalance_temperature ≤ 8000)

instance (s : ProcVals) : Decidable (proc_vals_in_bounds s) := by
  unfold proc_vals_in_bounds; infer_instance

/-- `_apply_brightness_contrast(img, brightness, contrast_units)`
(`color_correct.py` lines 38–41). -/
def _apply_brightness_contrast (img : Frame) (brightness : ℚ) (contrast_units : ℤ) : Frame :=
  let alpha : ℚ := 1.0 + 0.02 * max 0 (contrast_units : ℚ)
  let beta : ℤ := pyInt brightness
  convertScaleAbs img alpha (beta : ℚ)

/-- `_apply_hue_saturation(img, hue_units, sat_units)` (`color_correct.py`
lines 43–50).  The conversion to HSV, the `astype(np.int32)`, the split,
the per-channel updates, the `astype(np.uint8)` merge and the conversion
back are applied pixelwise (all the array operations involved are
elementwise).  `int(hue_units * 2)` on the integer register is
`hue_units * 2`; Python `//` is `Int.fdiv` and `%` on a positive modulus is
`Int.emod`.  `hue_sat_pixel` is the per-pixel body of that stage. -/
def hue_sat_pixel (cv : Cv2) (hue_shift_deg sat_units : ℤ) (p : Px) : Px :=
  let hsv := cv.bgr2hsv p
  let h : ℤ := hsv.h
  let s : ℤ := hsv.s
  let v : ℤ := hsv.v
  let h2 : ℤ := (h + hue_shift_deg.fdiv 2) % 180
  let s2 : ℤ := npClipZ (s + sat_units) 0 255
  cv.hsv2bgr { h := astype_u8 h2, s := astype_u8 s2, v := astype_u8 v }

def _apply_hue_saturation (cv : Cv2) (img : Frame) (hue_units sat_units : ℤ) : Frame :=
  let hue_shift_deg : ℤ := hue_units * 2
  img.map fun row => row.map (hue_sat_pixel cv hue_shift_deg sat_units)

/-- `_apply_sharpness(img, sharp_units)` (`color_correct.py` lines 52–56). -/
def _apply_sharpness (cv : Cv2) (img : Frame) (sharp_units : ℤ) : Frame :=
  let amount : ℚ := 0.05 * max 0 (sharp_units : ℚ)
  if amount ≤ 1e-6 then img
  else addWeighted img (1.0 + amount) (cv.gaussianBlur img) (-amount) 0

/-- `k = float(np.clip(kelvin, 1000, 12000)) / 100.0` (`color_correct.py`
line 59). -/
noncomputable def kelvin_k (kelvin : ℝ) : ℝ := npClipR kelvin 1000 12000 / 100

/-- The red component of `_kelvin_to_rgb` before normalization
(`color_correct.py` lines 60–63). -/
noncomputable def kelvin_red (k : ℝ) : ℝ :=
  if k ≤ 66 then 255
  else npClipR (329.698727446 * (k - 60) ^ (-0.1332047592 : ℝ)) 0 255

/-- The green component of `_kelvin_to_rgb` before normalization
(`color_correct.py` lines 64–66); the clip is applied to both branches. -/
noncomputable def kelvin_green (k : ℝ) : ℝ :=
  npClipR
    (if k ≤ 66 then 99.4708025861 * Real.log k - 161.1195681661
     else 288.1221695283 * (k - 60) ^ (-0.0755148492 : ℝ))
    0 255

/-- The blue component of `_kelvin_to_rgb` before normalization
(`color_correct.py` lines 67–71). -/
noncomputable def kelvin_blue (k : ℝ) : ℝ :=
  if 66 ≤ k then 255
  else if k ≤ 19 then 0
  else npClipR (138.5177312231 * Real.log (k - 10) - 305.0447927307) 0 255

/-- The normalized gain triple returned by `_kelvin_to_rgb` (components in
R,G,B order, each divided by 255; `color_correct.py` line 72). -/
structure RGBGain where
  r : ℝ
  g : ℝ
  b : ℝ

/-- `_kelvin_to_rgb(kelvin)` (`color_correct.py` lines 58–72). -/
noncomputable def _kelvin_to_rgb (kelvin : ℝ) : RGBGain :=
  let k := kelvin_k kelvin
  { r := kelvin_red k / 255, g := kelvin_green k / 255, b := kelvin_blue k / 255 }

/-- `scale = rgb / max(rgb[1], 1e-6)` (`color_correct.py` line 76). -/
noncomputable def wb_scale (kelvin : ℝ) : RGBGain :=
  let rgb := _kelvin_to_rgb kelvin
  let d := max rgb.g 1e-6
  { r := rgb.r / d, g := rgb.g / d, b := rgb.b / d }

/-- `np.clip(out, 0, 255).astype(np.uint8)` on one float channel
(`color_correct.py` line 81): the uint8 cast truncates toward zero, and on
the clipped range [0, 255] truncation toward zero is the floor. -/
noncomputable def clip_cast_u8 (x : ℝ) : ℕ := (⌊npClipR x 0 255⌋).toNat

/-- `_apply_wb_temperature(img, kelvin)` (`color_correct.py` lines 74–81):
array index 2 is the R channel, 1 is G, 0 is B. -/
noncomputable def _apply_wb_temperature (img : Frame) (kelvin : ℝ) : Frame :=
  let scale := wb_scale kelvin
  img.map fun row => row.map fun p =>
    { b := clip_cast_u8 ((p.b : ℝ) * scale.b)
      g := clip_cast_u8 ((p.g : ℝ) * scale.g)
      r := clip_cast_u8 ((p.r : ℝ) * scale.r) }

/-- `extra_beta = int(proc_vals["EXPOSURE"] + 0.6 * proc_vals["GAIN"])`
(`color_correct.py` line 85). -/
def extra_beta_of (exposure gain : ℤ) : ℤ :=
  pyInt ((exposure : ℚ) + 0.6 * (gain : ℚ))

/-- `apply_svo_pipeline(img)` (`color_correct.py` lines 83–90), with the
`proc_vals` registers passed explicitly. -/
noncomputable def apply_svo_pipeline (cv : Cv2) (pv : ProcVals) (img : Frame) : Frame :=
  let extra_beta := extra_beta_of pv.exposure pv.gain
  let img1 := _apply_brightness_contrast img ((pv.brightness + extra_beta : ℤ) : ℚ) pv.contrast
  let img2 := _apply_wb_temperature img1 ((pv.whitebalance_temperature : ℤ) : ℝ)
  let img3 := _apply_hue_saturation cv img2 pv.hue pv.saturation
  _apply_sharpness cv img3 pv.sharpness

/-- One call to `apply_svo_pipeline` as its Python caller observes it.  The
repository code performs no checks of its own, but the libraries it calls
do: `cv2.convertScaleAbs` and the numpy white-balance arithmetic accept
zero-sized arrays, while `cv2.cvtColor` — the first operation of
`_apply_hue_saturation` (`color_correct.py` line 45) — asserts that its
source Mat is non-empty and raises `cv2.error` on a frame of zero height or
zero width.  Past that assertion every later operation (the elementwise
channel updates, the conversion back, and `GaussianBlur`, which is reached
only on a frame of the same, now non-empty, shape) has no reachable failure
on these inputs, so a call either raises `cv2.error` at the hue/saturation
stage or returns the value of the total stage chain. -/
noncomputable def apply_svo_pipeline_run (cv : Cv2) (pv : ProcVals) (img : Frame) :
    Except String Frame :=
  let extra_beta := extra_beta_of pv.exposure pv.gain
  let img1 := _apply_brightness_contrast img ((pv.brightness + extra_beta : ℤ) : ℚ) pv.contrast
  let img2 := _apply_wb_temperature img1 ((pv.whitebalance_temperature : ℤ) : ℝ)
  if frame_has_bad_shape img2 then .error ("cv2.error")
  else .ok (_apply_sharpness cv (_apply_hue_saturation cv img2 pv.hue pv.saturation) pv.sharpness)

end color_correct

namespace single_frame

/-- `apply_brightness_contrast(img_bgr, brightness, contrast_units)`
(`single_frame.py` lines 49–53). -/
def apply_brightness_contrast (img_bgr : Frame) (brightness : ℚ) (contrast_units : ℤ) : Frame :=
  let alpha : ℚ := 1.0 + 0.02 * max 0 (contrast_units : ℚ)
  let beta : ℤ := pyInt brightness
  convertScaleAbs img_bgr alpha (beta : ℚ)

/-- `kelvin_to_rgb(kelvin)` (`single_frame.py` lines 55–69). -/
noncomputable def kelvin_to_rgb (kelvin : ℝ) : color_correct.RGBGain :=
  let k : ℝ := npClipR kelvin 1000 12000 / 100
  let r : ℝ :=
    if k ≤ 66 then 255
    else npClipR (329.698727446 * (k - 60) ^ (-0.1332047592 : ℝ)) 0 255
  let g : ℝ :=
    npClipR
      (if k ≤ 66 then 99.4708025861 * Real.log k - 161.1195681661
       else 288.1221695283 * (k - 60) ^ (-0.0755148492 : ℝ))
      0 255
  let b : ℝ :=
    if 66 ≤ k then 255
    else if k ≤ 19 then 0
    else npClipR (138.5177312231 * Real.log (k - 10) - 305.0447927307) 0 255
  { r := r / 255, g := g / 255, b := b / 255 }

/-- `apply_wb_temperature(img_bgr, kelvin)` (`single_frame.py` lines 71–78). -/
noncomputable def apply_wb_temperature (img_bgr : Frame) (kelvin : ℝ) : Frame :=
  let rgb := kelvin_to_rgb kelvin
  let scale : color_correct.RGBGain :=
    { r := rgb.r / max rgb.g 1e-6, g := rgb.g / max rgb.g 1e-6, b := rgb.b / max rgb.g 1e-6 }
  img_bgr.map fun row => row.map fun p =>
    { b := color_correct.clip_cast_u8 ((p.b : ℝ) * scale.b)
      g := color_correct.clip_cast_u8 ((p.g : ℝ) * scale.g)
      r := color_correct.clip_cast_u8 ((p.r : ℝ) * scale.r) }

/-- `apply_hue_saturation(img_bgr, hue_units, sat_units)` (`single_frame.py`
lines 80–88); same elementwise reading as the `color_correct` copy. -/
def apply_hue_saturation (cv : Cv2) (img_bgr : Frame) (hue_units sat_units : ℤ) : Frame :=
  let hue_shift_deg : ℤ := hue_units * 2
  img_bgr.map fun row => row.map fun p =>
    let hsv := cv.bgr2hsv p
    let h : ℤ := hsv.h
    let s : ℤ := hsv.s
    let v : ℤ := hsv.v
    let h2 : ℤ := (h + hue_shift_deg.fdiv 2) % 180
    let s2 : ℤ := npClipZ (s + sat_units) 0 255
    cv.hsv2bgr { h := astype_u8 h2, s := astype_u8 s2, v := astype_u8 v }

/-- `apply_sharpness(img_bgr, sharp_units)` (`single_frame.py` lines 90–96). -/
def apply_sharpness (cv : Cv2) (img_bgr : Frame) (sharp_units : ℤ) : Frame :=
  let amount : ℚ := 0.05 * max 0 (sharp_units : ℚ)
  if amount ≤ 1e-6 then img_bgr
  else addWeighted img_bgr (1.0 + amount) (cv.gaussianBlur img_bgr) (-amount) 0

/-- `render(img0, params)` (`single_frame.py` lines 98–106); `img0.copy()`
is the identity on the value level. -/
noncomputable def render (cv : Cv2) (img0 : Frame) (params : ProcVals) : Frame :=
  let img := img0
  let extra_beta := pyInt ((params.exposure : ℚ) + 0.6 * (params.gain : ℚ))
  let img1 := apply_brightness_contrast img ((params.brightness + extra_beta : ℤ) : ℚ) params.contrast
  let img2 := apply_wb_temperature img1 ((params.whitebalance_temperature : ℤ) : ℝ)
  let img3 := apply_hue_saturation cv img2 params.hue params.saturation
  apply_sharpness cv img3 params.sharpness

end single_frame

/-- A concrete interpretation of the abstract OpenCV primitives, used only
to instantiate witnesses: its HSV conversion always produces in-range
channels, and its blur is the identity. -/
def cvT : Cv2 :=
  { bgr2hsv := fun p => { h := p.b % 180, s := min p.g 255, v := min p.r 255 }
    hsv2bgr := fun x => { b := x.h, g := x.s, r := x.v }
    gaussianBlur := fun f => f }

/-- A concrete one-pixel frame used by witnesses. -/
def frame1 : Frame := [[{ b := 10, g := 20, r := 30 }]]

/-! ## Helper lemmas -/

open color_correct

theorem npClipZ_le_hi (x lo hi : ℤ) : npClipZ x lo hi ≤ hi := min_le_left _ _

theorem npClipZ_ge_lo (x : ℤ) {lo hi : ℤ} (h : lo ≤ hi) : lo ≤ npClipZ x lo hi :=
  le_min h (le_max_right _ _)

theorem pyInt_intCast (n : ℤ) : pyInt ((n : ℚ)) = n := by
  unfold pyInt
  split
  · exact Int.floor_intCast n
  · rw [show -((n : ℚ)) = (((-n : ℤ) : ℚ)) by push_cast; ring, Int.floor_intCast]
    ring

theorem specRound_two_mul (n : ℤ) : specRound ((n : ℚ) * 2) = 2 * n := by
  unfold specRound
  rw [show ((n : ℚ) * 2 + 1/2) = (1/2 + ((2 * n : ℤ) : ℚ)) by push_cast; ring,
    Int.floor_add_int]
  norm_num

theorem inc_proc_preserves_bounds (n : String) (d : ℤ) (s : ProcVals)
    (h : proc_vals_in_bounds s) : proc_vals_in_bounds (_inc_proc n d s) := by
  obtain ⟨h1, h2, h3, h4, h5, h6, h7, h8⟩ := h
  simp only [_inc_proc]
  split
  · exact ⟨⟨npClipZ_ge_lo _ (by norm_num), npClipZ_le_hi _ _ _⟩, h2, h3, h4, h5, h6, h7, h8⟩
  split
  · exact ⟨h1, ⟨npClipZ_ge_lo _ (by norm_num), npClipZ_le_hi _ _ _⟩, h3, h4, h5, h6, h7, h8⟩
  split
  · exact ⟨h1, h2, ⟨npClipZ_ge_lo _ (by norm_num), npClipZ_le_hi _ _ _⟩, h4, h5, h6, h7, h8⟩
  split
  · exact ⟨h1, h2, h3, ⟨npClipZ_ge_lo _ (by norm_num), npClipZ_le_hi _ _ _⟩, h5, h6, h7, h8⟩
  split
  · exact ⟨h1, h2, h3, h4, ⟨npClipZ_ge_lo _ (by norm_num), npClipZ_le_hi _ _ _⟩, h6, h7, h8⟩
  split
  · exact ⟨h1, h2, h3, h4, h5, ⟨npClipZ_ge_lo _ (by norm_num), npClipZ_le_hi _ _ _⟩, h7, h8⟩
  split
  · exact ⟨h1, h2, h3, h4, h5, h6, ⟨npClipZ_ge_lo _ (by norm_num), npClipZ_le_hi _ _ _⟩, h8⟩
  split
  · exact ⟨h1, h2, h3, h4, h5, h6, h7, npClipZ_ge_lo _ (by norm_num), npClipZ_le_hi _ _ _⟩
  exact ⟨h1, h2, h3, h4, h5, h6, h7, h8⟩

theorem foldl_inc_proc_in_bounds (cmds : List (String × ℤ)) (s : ProcVals)
    (h : proc_vals_in_bounds s) :
    proc_vals_in_bounds (cmds.foldl (fun acc c => _inc_proc c.1 c.2 acc) s) := by
  induction cmds generalizing s with
  | nil => exact h
  | cons c t ih => exact ih _ (inc_proc_preserves_bounds c.1 c.2 s h)

theorem inc_proc_brightness_step (s : ProcVals) :
    _inc_proc ("BRIGHTNESS") 1 s =
      { brightness := npClipZ (s.brightness + 1 * step_camera_settings) (-100) 100,
        contrast := s.contrast, hue := s.hue, saturation := s.saturation,
        sharpness := s.sharpness, gain := s.gain, exposure := s.exposure,
        whitebalance_temperature := s.whitebalance_temperature } :=
  rfl

theorem iterate_brightness_formula (n : ℕ) :
    (_inc_proc ("BRIGHTNESS") 1)^[n] proc_vals =
      { brightness := min 100 (n : ℤ), contrast := 0, hue := 0, saturation := 0,
        sharpness := 0, gain := 0, exposure := 0, whitebalance_temperature := 5500 } := by
  induction n with
  | zero => rfl
  | succ k ih =>
    rw [Function.iterate_succ_apply', ih, inc_proc_brightness_step]
    show ProcVals.mk
        (npClipZ (min 100 (k : ℤ) + 1 * step_camera_settings) (-100) 100) 0 0 0 0 0 0 5500 = _
    rw [show (((k + 1 : ℕ)) : ℤ) = (k : ℤ) + 1 by push_cast; ring]
    congr 1
    unfold npClipZ step_camera_settings
    omega

/-! ## The claims -/

/-- Claim C2: starting from the defaults, any finite sequence of adjustment
commands (any names, any integer deltas — in particular the eight valid
names with ±1) leaves every one of the eight stored values within its
declared bound; 250 increments of BRIGHTNESS from the default leave it at
exactly 100; and reset restores the documented defaults from any state. -/
theorem C2_store_clamped_and_reset :
    (∀ cmds : List (String × ℤ),
        proc_vals_in_bounds (cmds.foldl (fun acc c => _inc_proc c.1 c.2 acc) proc_vals))
    ∧ ((_inc_proc ("BRIGHTNESS") 1)^[250] proc_vals).brightness = 100
    ∧ (∀ s : ProcVals, reset_playback_settings s = proc_vals) := by
  refine ⟨fun cmds => foldl_inc_proc_in_bounds cmds proc_vals (by decide), ?_, fun s => rfl⟩
  rw [iterate_brightness_formula]
  rfl

/-- Claim C7 counterexample: an adjustment whose (normalized) name is
outside the fixed eight — here the actual UI label "White Balance", which
normalizes to the non-key "WHITE_BALANCE" — does not make the error
propagate: the call returns normally (`.ok`, never `.error`) with the store
unchanged, i.e. it is silently ignored. -/
theorem C7_counterexample :
    ((normalize_setting_name ("White Balance")) ∉ proc_keys)
    ∧ _inc_proc_call ("White Balance") 1 proc_vals = .ok proc_vals :=
  ⟨by decide, rfl⟩

/-- Claim C7 (amended): for every adjustment command whose normalized
setting name is outside the fixed eight, the operation is silently
ignored — the call returns normally and no stored value changes (the
source's early `return`; no error is raised). -/
theorem C7_unknown_name_is_silent (name : String) (delta : ℤ) (s : ProcVals)
    (h : (normalize_setting_name name) ∉ proc_keys) :
    _inc_proc_call name delta s = .ok s := by
  simp only [proc_keys, List.mem_cons, List.not_mem_nil, or_false, not_or] at h
  obtain ⟨n1, n2, n3, n4, n5, n6, n7, n8⟩ := h
  simp only [_inc_proc_call, _inc_proc, if_neg n1, if_neg n2, if_neg n3, if_neg n4,
    if_neg n5, if_neg n6, if_neg n7, if_neg n8]

theorem C7_unknown_name_is_silent_witness :
    ((normalize_setting_name ("FOO")) ∉ proc_keys)
    ∧ _inc_proc_call ("FOO") 1 proc_vals = .ok proc_vals :=
  ⟨by decide, C7_unknown_name_is_silent ("FOO") 1 proc_vals (by decide)⟩

/-- Claim C1: the pipeline is exactly the four-fold composition
Brightness/Contrast (with EXPOSURE/GAIN folded into the brightness term),
then White balance, then Hue/Saturation, then Sharpness, each stage
consuming the previous stage's output — for every frame, every parameter
snapshot (in-range or not) and every interpretation of the abstract OpenCV
primitives. -/
theorem C1_pipeline_is_ordered_composition (cv : Cv2) (pv : ProcVals) (img : Frame) :
    apply_svo_pipeline cv pv img =
      _apply_sharpness cv
        (_apply_hue_saturation cv
          (_apply_wb_temperature
            (_apply_brightness_contrast img
              ((pv.brightness + extra_beta_of pv.exposure pv.gain : ℤ) : ℚ)
              pv.contrast)
            ((pv.whitebalance_temperature : ℤ) : ℝ))
          pv.hue pv.saturation)
        pv.sharpness :=
  rfl

/-- Claim C9: the two independent translations of the grading pipeline —
`apply_svo_pipeline` of `color_correct.py` run on a register snapshot, and
`render` of `single_frame.py` run on the same parameter mapping — compute
the same function, and each per-stage helper pair is extensionally equal. -/
theorem C9_two_sources_compute_same_function :
    (∀ (cv : Cv2) (pv : ProcVals) (img : Frame),
        apply_svo_pipeline cv pv img = single_frame.render cv img pv)
    ∧ (∀ (img : Frame) (b : ℚ) (c : ℤ),
        _apply_brightness_contrast img b c = single_frame.apply_brightness_contrast img b c)
    ∧ (∀ k : ℝ, _kelvin_to_rgb k = single_frame.kelvin_to_rgb k)
    ∧ (∀ (img : Frame) (k : ℝ),
        _apply_wb_temperature img k = single_frame.apply_wb_temperature img k)
    ∧ (∀ (cv : Cv2) (img : Frame) (hu su : ℤ),
        _apply_hue_saturation cv img hu su = single_frame.apply_hue_saturation cv img hu su)
    ∧ (∀ (cv : Cv2) (img : Frame) (su : ℤ),
        _apply_sharpness cv img su = single_frame.apply_sharpness cv img su) :=
  ⟨fun _ _ _ => rfl, fun _ _ _ => rfl, fun _ => rfl, fun _ _ => rfl,
   fun _ _ _ _ => rfl, fun _ _ _ => rfl⟩

/-- Claim C3 counterexample: with the in-range values EXPOSURE = 0 and
GAIN = 1, the pipeline's combined brightness extra term is
`int(0 + 0.6*1) = 0` (truncation), while the claimed
`round(0 + 0.6*1)` is 1 — so the claim's round-to-nearest formula does not
match the code. -/
theorem C3_counterexample :
    (0 ≤ (0 : ℤ) ∧ (0 : ℤ) ≤ 100 ∧ 0 ≤ (1 : ℤ) ∧ (1 : ℤ) ≤ 100)
    ∧ extra_beta_of 0 1 = 0
    ∧ specRound (((0 : ℤ) : ℚ) + 0.6 * ((1 : ℤ) : ℚ)) = 1
    ∧ extra_beta_of 0 1 ≠ specRound (((0 : ℤ) : ℚ) + 0.6 * ((1 : ℤ) : ℚ)) := by
  have h1 : extra_beta_of 0 1 = 0 := by
    unfold extra_beta_of pyInt
    rw [if_pos (by norm_num : (0 : ℚ) ≤ ((0 : ℤ) : ℚ) + 0.6 * ((1 : ℤ) : ℚ))]
    norm_num
  have h2 : specRound (((0 : ℤ) : ℚ) + 0.6 * ((1 : ℤ) : ℚ)) = 1 := by
    unfold specRound
    norm_num
  refine ⟨⟨le_refl 0, by norm_num, by norm_num, by norm_num⟩, h1, h2, ?_⟩
  rw [h1, h2]
  decide

/-- Claim C3 (amended): for in-range (hence nonnegative) EXPOSURE and GAIN,
the extra term the pipeline folds into brightness is the Python `int()`
truncation of `EXPOSURE + 0.6*GAIN` — the floor, the operand being
nonnegative — not round-to-nearest; and the per-channel offset beta
computed by the Brightness/Contrast stage from the integer brightness the
pipeline passes is exactly that integer. -/
theorem C3_extra_beta_truncates (E G B : ℤ) (hE : 0 ≤ E) (hG : 0 ≤ G) :
    extra_beta_of E G = ⌊(E : ℚ) + 0.6 * (G : ℚ)⌋
    ∧ pyInt (((B + extra_beta_of E G : ℤ)) : ℚ) = B + extra_beta_of E G := by
  constructor
  · unfold extra_beta_of pyInt
    rw [if_pos]
    exact add_nonneg (by exact_mod_cast hE) (mul_nonneg (by norm_num) (by exact_mod_cast hG))
  · exact pyInt_intCast _

theorem C3_extra_beta_truncates_witness :
    (0 ≤ (0 : ℤ) ∧ 0 ≤ (1 : ℤ))
    ∧ (extra_beta_of 0 1 = ⌊((0 : ℤ) : ℚ) + 0.6 * ((1 : ℤ) : ℚ)⌋
       ∧ pyInt ((((-5 : ℤ) + extra_beta_of 0 1 : ℤ)) : ℚ) = (-5 : ℤ) + extra_beta_of 0 1) :=
  ⟨⟨le_refl 0, by norm_num⟩, C3_extra_beta_truncates 0 1 (-5) (le_refl 0) (by norm_num)⟩

/-- Claim C5: whenever the computed amount `0.05 * max(0, sharpUnits)` is
at most 1e-6 — in particular for sharpUnits = 0 — the sharpness stage (in
both source files) returns its input frame exactly, byte for byte. -/
theorem C5_sharpness_identity (cv : Cv2) (img : Frame) (su : ℤ)
    (h : (0.05 : ℚ) * max 0 (su : ℚ) ≤ 1e-6) :
    _apply_sharpness cv img su = img ∧ single_frame.apply_sharpness cv img su = img := by
  constructor
  · show (if (0.05 : ℚ) * max 0 (su : ℚ) ≤ 1e-6 then img else _) = img
    rw [if_pos h]
  · show (if (0.05 : ℚ) * max 0 (su : ℚ) ≤ 1e-6 then img else _) = img
    rw [if_pos h]

theorem C5_sharpness_identity_witness :
    ((0.05 : ℚ) * max 0 ((0 : ℤ) : ℚ) ≤ 1e-6)
    ∧ (_apply_sharpness cvT frame1 0 = frame1
       ∧ single_frame.apply_sharpness cvT frame1 0 = frame1) :=
  ⟨by norm_num, C5_sharpness_identity cvT frame1 0 (by norm_num)⟩

theorem cvT_ranges :
    ∀ p : Px, (cvT.bgr2hsv p).h ≤ 179 ∧ (cvT.bgr2hsv p).s ≤ 255 ∧ (cvT.bgr2hsv p).v ≤ 255 := by
  intro p
  refine ⟨?_, ?_, ?_⟩
  · show p.b % 180 ≤ 179
    omega
  · show min p.g 255 ≤ 255
    omega
  · show min p.r 255 ≤ 255
    omega

/-- Claim C4: whenever the abstract HSV conversion delivers in-range
channels (hue ≤ 179, saturation and value ≤ 255, as `cv2.cvtColor`'s uint8
output does), the Hue/Saturation stage replaces each pixel's hue by
`(hue + round(hueUnits*2) div 2) mod 180` with integer division, replaces
saturation by `clamp(sat + satUnits, 0, 255)`, and leaves the value channel
untouched before converting back. -/
theorem C4_hue_saturation_stage (cv : Cv2) (img : Frame) (hu su : ℤ)
    (hcv : ∀ p : Px,
      (cv.bgr2hsv p).h ≤ 179 ∧ (cv.bgr2hsv p).s ≤ 255 ∧ (cv.bgr2hsv p).v ≤ 255) :
    _apply_hue_saturation cv img hu su =
      img.map fun row => row.map fun p =>
        cv.hsv2bgr
          { h := ((((cv.bgr2hsv p).h : ℤ) + (specRound ((hu : ℚ) * 2)).fdiv 2) % 180).toNat
            s := (npClipZ (((cv.bgr2hsv p).s : ℤ) + su) 0 255).toNat
            v := (cv.bgr2hsv p).v } := by
  have hpix : ∀ p : Px,
      hue_sat_pixel cv (hu * 2) su p =
        cv.hsv2bgr
          { h := ((((cv.bgr2hsv p).h : ℤ) + (specRound ((hu : ℚ) * 2)).fdiv 2) % 180).toNat
            s := (npClipZ (((cv.bgr2hsv p).s : ℤ) + su) 0 255).toNat
            v := (cv.bgr2hsv p).v } := by
    intro p
    obtain ⟨hh, hs, hv⟩ := hcv p
    simp only [hue_sat_pixel]
    rw [specRound_two_mul, show (2 : ℤ) * hu = hu * 2 from mul_comm 2 hu]
    refine congrArg cv.hsv2bgr ?_
    rw [Hsv.mk.injEq]
    refine ⟨?_, ?_, ?_⟩
    · unfold astype_u8
      omega
    · unfold astype_u8 npClipZ
      omega
    · unfold astype_u8
      omega
  simp only [_apply_hue_saturation]
  rw [show hue_sat_pixel cv (hu * 2) su = (fun p : Px =>
      cv.hsv2bgr
        { h := ((((cv.bgr2hsv p).h : ℤ) + (specRound ((hu : ℚ) * 2)).fdiv 2) % 180).toNat
          s := (npClipZ (((cv.bgr2hsv p).s : ℤ) + su) 0 255).toNat
          v := (cv.bgr2hsv p).v }) from funext hpix]

theorem C4_hue_saturation_stage_witness :
    (∀ p : Px, (cvT.bgr2hsv p).h ≤ 179 ∧ (cvT.bgr2hsv p).s ≤ 255 ∧ (cvT.bgr2hsv p).v ≤ 255)
    ∧ _apply_hue_saturation cvT frame1 5 7 =
        frame1.map fun row => row.map fun p =>
          cvT.hsv2bgr
            { h := ((((cvT.bgr2hsv p).h : ℤ) + (specRound (((5 : ℤ) : ℚ) * 2)).fdiv 2) % 180).toNat
              s := (npClipZ (((cvT.bgr2hsv p).s : ℤ) + 7) 0 255).toNat
              v := (cvT.bgr2hsv p).v } :=
  ⟨cvT_ranges, C4_hue_saturation_stage cvT frame1 5 7 cvT_ranges⟩

theorem frame_has_bad_shape_pixel_map (φ : Px → Px) (f : Frame) :
    frame_has_bad_shape (f.map fun row => row.map φ) = frame_has_bad_shape f := by
  unfold frame_has_bad_shape
  rw [List.length_map, List.any_map]
  have hpred : ((fun row : List Px => row.length == 0) ∘ fun row => List.map φ row)
      = fun row : List Px => row.length == 0 := by
    funext row
    simp [Function.comp]
  rw [hpred]

theorem frame_has_bad_shape_bc (f : Frame) (b : ℚ) (c : ℤ) :
    frame_has_bad_shape (_apply_brightness_contrast f b c) = frame_has_bad_shape f := by
  simp only [_apply_brightness_contrast, convertScaleAbs]
  exact frame_has_bad_shape_pixel_map _ f

theorem frame_has_bad_shape_wb (f : Frame) (k : ℝ) :
    frame_has_bad_shape (_apply_wb_temperature f k) = frame_has_bad_shape f := by
  simp only [_apply_wb_temperature]
  exact frame_has_bad_shape_pixel_map _ f

/-- Claim C8 counterexample: at the zero-height frame the pipeline does not
propagate an `InputShapeError` before any stage.  The brightness/contrast
and white-balance stages are applied to the frame (transforming it,
vacuously, to the empty frame), and the caller then gets the image
library's `cv2.error` from the `cvtColor` assertion inside the third stage
— a different error, raised only after two stages have run. -/
theorem C8_counterexample :
    frame_has_bad_shape ([] : Frame) = true
    ∧ _apply_wb_temperature
        (_apply_brightness_contrast []
          ((proc_vals.brightness + extra_beta_of proc_vals.exposure proc_vals.gain : ℤ) : ℚ)
          proc_vals.contrast)
        ((proc_vals.whitebalance_temperature : ℤ) : ℝ) = ([] : Frame)
    ∧ apply_svo_pipeline_run cvT proc_vals [] = .error ("cv2.error")
    ∧ Except.error ("cv2.error") ≠ (Except.error ("InputShapeError") : Except String Frame) := by
  refine ⟨rfl, rfl, rfl, ?_⟩
  intro hc
  rw [Except.error.injEq] at hc
  exact absurd hc (by decide)

/-- Claim C8 (amended): the pipeline performs no shape validation of its
own, so a frame of zero height or zero width is not rejected before any
stage: the brightness/contrast and white-balance stages are applied to it,
and the call then fails with the image library's `cv2.error` from the
non-empty assertion of `cvtColor` inside the hue/saturation stage — it
never propagates an `InputShapeError`.  A frame of good shape passes
through all four stages with no check at all. -/
theorem C8_library_error_not_upfront (cv : Cv2) (pv : ProcVals) (f : Frame) :
    (frame_has_bad_shape f = true →
        apply_svo_pipeline_run cv pv f = .error ("cv2.error"))
    ∧ (frame_has_bad_shape f = false →
        apply_svo_pipeline_run cv pv f = .ok (apply_svo_pipeline cv pv f))
    ∧ apply_svo_pipeline_run cv pv f ≠ .error ("InputShapeError") := by
  have hshape :
      frame_has_bad_shape
        (_apply_wb_temperature
          (_apply_brightness_contrast f
            ((pv.brightness + extra_beta_of pv.exposure pv.gain : ℤ) : ℚ) pv.contrast)
          ((pv.whitebalance_temperature : ℤ) : ℝ)) = frame_has_bad_shape f := by
    rw [frame_has_bad_shape_wb, frame_has_bad_shape_bc]
  have hbad : frame_has_bad_shape f = true →
      apply_svo_pipeline_run cv pv f = .error ("cv2.error") := by
    intro hf
    simp only [apply_svo_pipeline_run]
    rw [hshape, hf]
    rfl
  have hgood : frame_has_bad_shape f = false →
      apply_svo_pipeline_run cv pv f = .ok (apply_svo_pipeline cv pv f) := by
    intro hf
    simp only [apply_svo_pipeline_run]
    rw [hshape, hf]
    rfl
  refine ⟨hbad, hgood, ?_⟩
  by_cases hb : frame_has_bad_shape f = true
  · rw [hbad hb]
    intro hc
    rw [Except.error.injEq] at hc
    exact absurd hc (by decide)
  · simp only [Bool.not_eq_true] at hb
    rw [hgood hb]
    intro hc
    exact Except.noConfusion hc

theorem C8_library_error_not_upfront_witness :
    frame_has_bad_shape ([] : Frame) = true
    ∧ apply_svo_pipeline_run cvT proc_vals [] = .error ("cv2.error") :=
  ⟨rfl, (C8_library_error_not_upfront cvT proc_vals []).1 rfl⟩

/-! ## The Kelvin converter: monotonicity and the green guard -/

theorem npClipR_le_hi (x lo hi : ℝ) : npClipR x lo hi ≤ hi := min_le_left _ _

theorem npClipR_ge_lo (x : ℝ) {lo hi : ℝ} (h : lo ≤ hi) : lo ≤ npClipR x lo hi :=
  le_min h (le_max_right _ _)

theorem npClipR_mono {lo hi a b : ℝ} (hab : a ≤ b) : npClipR a lo hi ≤ npClipR b lo hi :=
  min_le_min le_rfl (max_le_max hab le_rfl)

theorem kelvin_k_mono {a b : ℝ} (hab : a ≤ b) : kelvin_k a ≤ kelvin_k b := by
  unfold kelvin_k
  exact (div_le_div_iff_of_pos_right (by norm_num)).mpr (npClipR_mono hab)

theorem kelvin_k_ge_ten (kelvin : ℝ) : 10 ≤ kelvin_k kelvin := by
  unfold kelvin_k
  have h := npClipR_ge_lo kelvin (show (1000 : ℝ) ≤ 12000 by norm_num)
  linarith

theorem kelvin_k_le_120 (kelvin : ℝ) : kelvin_k kelvin ≤ 120 := by
  unfold kelvin_k
  have h := npClipR_le_hi kelvin 1000 12000
  linarith

theorem kelvin_blue_mono {a b : ℝ} (hab : a ≤ b) : kelvin_blue a ≤ kelvin_blue b := by
  unfold kelvin_blue
  by_cases hb66 : 66 ≤ b
  · rw [if_pos hb66]
    by_cases ha66 : 66 ≤ a
    · rw [if_pos ha66]
    · rw [if_neg ha66]
      by_cases ha19 : a ≤ 19
      · rw [if_pos ha19]
        norm_num
      · rw [if_neg ha19]
        exact npClipR_le_hi _ _ _
  · rw [if_neg hb66]
    have ha66 : ¬ 66 ≤ a := fun hc => hb66 (hc.trans hab)
    rw [if_neg ha66]
    by_cases ha19 : a ≤ 19
    · rw [if_pos ha19]
      by_cases hb19 : b ≤ 19
      · rw [if_pos hb19]
      · rw [if_neg hb19]
        exact npClipR_ge_lo _ (by norm_num)
    · rw [if_neg ha19]
      have hb19 : ¬ b ≤ 19 := fun hc => ha19 (hab.trans hc)
      rw [if_neg hb19]
      apply npClipR_mono
      have ha10 : (0 : ℝ) < a - 10 := by
        have := not_le.mp ha19
        linarith
      have hlog := Real.log_le_log ha10 (show a - 10 ≤ b - 10 by linarith)
      linarith

theorem kelvin_red_anti {a b : ℝ} (hab : a ≤ b) : kelvin_red b ≤ kelvin_red a := by
  unfold kelvin_red
  by_cases ha66 : a ≤ 66
  · rw [if_pos ha66]
    by_cases hb66 : b ≤ 66
    · rw [if_pos hb66]
    · rw [if_neg hb66]
      exact npClipR_le_hi _ _ _
  · rw [if_neg ha66]
    have hb66 : ¬ b ≤ 66 := fun hc => ha66 (hab.trans hc)
    rw [if_neg hb66]
    apply npClipR_mono
    have ha60 : (0 : ℝ) < a - 60 := by
      have := not_le.mp ha66
      linarith
    have hb60 : (0 : ℝ) < b - 60 := by
      have := not_le.mp hb66
      linarith
    have key : (b - 60) ^ (-0.1332047592 : ℝ) ≤ (a - 60) ^ (-0.1332047592 : ℝ) := by
      rw [Real.rpow_neg ha60.le, Real.rpow_neg hb60.le]
      exact inv_le_inv_of_le (Real.rpow_pos_of_pos ha60 _)
        (Real.rpow_le_rpow ha60.le (by linarith) (by norm_num))
    linarith

theorem exp_two_lt_ten : Real.exp 2 < 10 := by
  have h := Real.exp_one_lt_d9
  have h2 : Real.exp 2 = Real.exp 1 * Real.exp 1 := by
    rw [← Real.exp_add]
    norm_num
  rw [h2]
  nlinarith [Real.exp_pos 1]

theorem two_lt_log_ten : (2 : ℝ) < Real.log 10 :=
  (Real.lt_log_iff_exp_lt (by norm_num)).mpr exp_two_lt_ten

theorem kelvin_green_ge_one {k : ℝ} (h10 : 10 ≤ k) (h120 : k ≤ 120) :
    1 ≤ kelvin_green k := by
  unfold kelvin_green npClipR
  refine le_min (by norm_num) (le_trans ?_ (le_max_left _ _))
  split
  · have hlogk : (2 : ℝ) < Real.log k :=
      lt_of_lt_of_le two_lt_log_ten (Real.log_le_log (by norm_num) h10)
    linarith
  · rename_i hk66
    have hk66' : (66 : ℝ) < k := not_le.mp hk66
    have hx1 : (1 : ℝ) ≤ k - 60 := by linarith
    have hx60 : k - 60 ≤ 60 := by linarith
    have h1 : (k - 60) ^ (-1 : ℝ) ≤ (k - 60) ^ (-0.0755148492 : ℝ) :=
      Real.rpow_le_rpow_of_exponent_le hx1 (by norm_num)
    rw [Real.rpow_neg_one] at h1
    have h3 : (60 : ℝ)⁻¹ ≤ (k - 60)⁻¹ := inv_le_inv_of_le (by linarith) hx60
    have h4 : (60 : ℝ)⁻¹ ≤ (k - 60) ^ (-0.0755148492 : ℝ) := h3.trans h1
    nlinarith [h4]

/-- Claim C6: for any two kelvin inputs with `k1 < k2`, the converter's
blue gain at `k2` is at least the blue gain at `k1`, and its red gain at
`k2` is at most the red gain at `k1` — over the whole clamped domain. -/
theorem C6_kelvin_monotonicity (k1 k2 : ℝ) (h : k1 < k2) :
    (_kelvin_to_rgb k1).b ≤ (_kelvin_to_rgb k2).b
    ∧ (_kelvin_to_rgb k2).r ≤ (_kelvin_to_rgb k1).r := by
  have hk : kelvin_k k1 ≤ kelvin_k k2 := kelvin_k_mono h.le
  constructor
  · show kelvin_blue (kelvin_k k1) / 255 ≤ kelvin_blue (kelvin_k k2) / 255
    have := kelvin_blue_mono hk
    linarith
  · show kelvin_red (kelvin_k k2) / 255 ≤ kelvin_red (kelvin_k k1) / 255
    have := kelvin_red_anti hk
    linarith

theorem C6_kelvin_monotonicity_witness :
    (3000 : ℝ) < 7000
    ∧ ((_kelvin_to_rgb 3000).b ≤ (_kelvin_to_rgb 7000).b
       ∧ (_kelvin_to_rgb 7000).r ≤ (_kelvin_to_rgb 3000).r) :=
  ⟨by norm_num, C6_kelvin_monotonicity 3000 7000 (by norm_num)⟩

/-- Claim C10: for every kelvin input the green gain (after the input clamp
to [1000, 12000]) exceeds 1e-6 — indeed it is at least 1/255 — so the white
balance stage's division guard `max(green, 1e-6)` equals the green gain
itself, the green scale factor is exactly 1, and the guard's fallback is
unreachable. -/
theorem C10_green_guard_trivial (kelvin : ℝ) :
    (1e-6 : ℝ) < (_kelvin_to_rgb kelvin).g
    ∧ max ((_kelvin_to_rgb kelvin).g) 1e-6 = (_kelvin_to_rgb kelvin).g
    ∧ (wb_scale kelvin).g = 1 := by
  have hg : 1 ≤ kelvin_green (kelvin_k kelvin) :=
    kelvin_green_ge_one (kelvin_k_ge_ten kelvin) (kelvin_k_le_120 kelvin)
  have hgg : (1e-6 : ℝ) < (_kelvin_to_rgb kelvin).g := by
    show (1e-6 : ℝ) < kelvin_green (kelvin_k kelvin) / 255
    linarith
  refine ⟨hgg, max_eq_left hgg.le, ?_⟩
  show (_kelvin_to_rgb kelvin).g / max ((_kelvin_to_rgb kelvin).g) 1e-6 = 1
  rw [max_eq_left hgg.le]
  exact div_self (ne_of_gt (lt_trans (by norm_num) hgg))
